import Mathlib

/-!
Verification of the monsterSpotter calculation engine.

The definitions below are a shallow embedding of the JavaScript source:
`time.js` (calendar/time oracle), `config.js` (static tables),
`monster.js` (rules engine) and `spottingCalculator.js` (simulation
engine).  JavaScript numbers are modelled as rationals, the mutable
`appState`/`debugState` globals as explicit parameters, and the seeded
random generator as an explicit stream `ℕ → ℚ` with a position index.
-/

namespace MonsterSpotter

/-- The application date, as read through the JavaScript `Date` UTC
accessors.  `ms` is `getTime()` (milliseconds since the epoch),
`utcMonth` is 0-based as in JavaScript. -/
structure JsDate where
  ms : ℤ
  utcYear : ℤ
  utcMonth : ℕ
  utcDay : ℕ
  deriving DecidableEq

/-- The caller's real wall-clock time-of-day, as read through the local
`Date` accessors in `getCurrentTime`. -/
structure WallClock where
  hours : ℕ
  minutes : ℕ
  seconds : ℕ
  millis : ℕ
  deriving DecidableEq

/-- `debugState` from `state.js`.  `forceTime` is the parsed `HH:MM`
override (`null` when absent); `forceSeason` is `'auto'` or a season
name. -/
structure DebugState where
  multiplier : ℚ
  forceTime : Option (ℕ × ℕ)
  forceFullMoon : Option Bool
  forceSeason : String
  forceHalloween : Option Bool
  deriving DecidableEq

/-- The ambient inputs of one recomputation: the shared application
date, the debug overrides and the caller's wall clock. -/
structure Ctx where
  date : JsDate
  dbg : DebugState
  wall : WallClock
  deriving DecidableEq

/-- The simulated time produced by `getCurrentTime`: the application
date carrying either the forced time-of-day or the caller's local
wall-clock time-of-day. -/
structure TimeOfDay where
  hours : ℕ
  minutes : ℕ
  seconds : ℕ
  millis : ℕ
  deriving DecidableEq

/-- `getCurrentTime` from `time.js`: honour `forceTime` (setting
seconds and milliseconds to 0), otherwise copy the wall clock onto the
application date. -/
def getCurrentTime (ctx : Ctx) : TimeOfDay :=
  match ctx.dbg.forceTime with
  | some (h, m) => ⟨h, m, 0, 0⟩
  | none => ⟨ctx.wall.hours, ctx.wall.minutes, ctx.wall.seconds, ctx.wall.millis⟩

/-- `timeToMins` from `time.js`. -/
def timeToMins (t : TimeOfDay) : ℚ :=
  ((t.hours * 60 + t.minutes : ℕ) : ℚ)

/-- The current minutes-past-midnight, `timeToMins(getCurrentTime())`. -/
def currentMins (ctx : Ctx) : ℚ := timeToMins (getCurrentTime ctx)

/-- The current hour, `getCurrentTime().getHours()`. -/
def currentHours (ctx : Ctx) : ℕ := (getCurrentTime ctx).hours

/-- One entry of `TIME_PERIODS` in `config.js`.  `stop` stands for the
JavaScript field `end` (a Lean keyword). -/
structure TimePeriod where
  start : ℚ
  peak : ℚ
  stop : ℚ
  multiplier : ℚ
  deriving DecidableEq

/-- `TIME_PERIODS` from `config.js`, in object-key insertion order. -/
def TIME_PERIODS : List (String × TimePeriod) :=
  [("Midnight",      ⟨0,    15,   59,   5/2⟩),
   ("Late Night",    ⟨60,   150,  239,  2⟩),
   ("Early Morning", ⟨240,  300,  359,  7/5⟩),
   ("Morning",       ⟨360,  420,  539,  6/5⟩),
   ("Day",           ⟨540,  720,  1079, 1⟩),
   ("Evening",       ⟨1080, 1140, 1259, 7/5⟩),
   ("Night",         ⟨1260, 1350, 1439, 11/5⟩)]

/-- `getCurrentPeriodName` from `time.js`: the first period whose
closed interval contains the current minute, else `'Day'`. -/
def getCurrentPeriodName (ctx : Ctx) : String :=
  let now := currentMins ctx
  match TIME_PERIODS.find? (fun pr => decide (pr.2.start ≤ now) && decide (now ≤ pr.2.stop)) with
  | some pr => pr.1
  | none => "Day"

/-- `isPeriod` from `time.js`. -/
def isPeriod (ctx : Ctx) (periodName : String) : Bool :=
  getCurrentPeriodName ctx == periodName

/-- `isNight` from `time.js`: hour ≥ 21 or hour < 6. -/
def isNight (ctx : Ctx) : Bool :=
  decide (21 ≤ currentHours ctx) || decide (currentHours ctx < 6)

/-- `isDark` from `time.js`. -/
def isDark (ctx : Ctx) : Bool :=
  isPeriod ctx "Evening" || isNight ctx

/-- `isWitchingHour` from `time.js`: hour = 0. -/
def isWitchingHour (ctx : Ctx) : Bool :=
  currentHours ctx == 0

/-- The synodic month constant `LUNAR_MONTH = 29.530588853`. -/
def LUNAR_MONTH : ℚ := 29530588853 / 1000000000

/-- `Date.UTC(2000, 0, 6, 18, 14)` in milliseconds since the epoch. -/
def knownNewMoonMs : ℤ := 947182440000

/-- Truncation toward zero, the rounding used by the JavaScript `%`
operator. -/
def ratTrunc (q : ℚ) : ℤ :=
  if 0 ≤ q then ⌊q⌋ else ⌈q⌉

/-- The JavaScript remainder `a % b` on numbers (sign follows the
dividend). -/
def jsFmod (a b : ℚ) : ℚ :=
  a - b * (ratTrunc (a / b) : ℚ)

/-- `Math.round`: round half toward positive infinity. -/
def jsRound (q : ℚ) : ℤ := ⌊q + 1/2⌋

/-- The JavaScript remainder on integers. -/
def jsRem (a n : ℤ) : ℤ :=
  a - n * ratTrunc ((a : ℚ) / (n : ℚ))

/-- The 8 moon-phase icons of `getMoonPhaseIcon`. -/
def moonIcons : List String := ["🌑", "🌒", "🌓", "🌔", "🌕", "🌖", "🌗", "🌘"]

/-- `getMoonPhaseIcon` from `time.js`.  The result is `none` when the
computed array index falls outside the icon array (a JavaScript
`undefined`). -/
def getMoonPhaseIcon (tms : ℤ) : Option String :=
  let daysSinceKnownNewMoon : ℚ := ((tms - knownNewMoonMs : ℤ) : ℚ) / 86400000
  let phase := jsFmod daysSinceKnownNewMoon LUNAR_MONTH / LUNAR_MONTH
  let index := jsRem (jsRound (phase * 8)) 8
  if 0 ≤ index ∧ index < 8 then some (moonIcons.getD index.toNat "") else none

/-- `isFullMoon` from `time.js`, honouring the debug override. -/
def isFullMoon (ctx : Ctx) : Bool :=
  match ctx.dbg.forceFullMoon with
  | some b => b
  | none => getMoonPhaseIcon ctx.date.ms == some "🌕"

/-- `isHalloween` from `time.js`: October 31st (UTC), honouring the
debug override. -/
def isHalloween (ctx : Ctx) : Bool :=
  match ctx.dbg.forceHalloween with
  | some b => b
  | none => ctx.date.utcMonth == 9 && ctx.date.utcDay == 31

/-- `isMidsummer` from `time.js`: June 21st (UTC). -/
def isMidsummer (ctx : Ctx) : Bool :=
  ctx.date.utcMonth == 5 && ctx.date.utcDay == 21

/-- `isYule` from `time.js`: any day in December (UTC). -/
def isYule (ctx : Ctx) : Bool :=
  ctx.date.utcMonth == 11

/-- `getCurrentSeason` from `time.js`, honouring the debug override. -/
def getCurrentSeason (ctx : Ctx) : String :=
  if ctx.dbg.forceSeason = "auto" then
    let month := ctx.date.utcMonth
    if 2 ≤ month ∧ month ≤ 4 then "Spring"
    else if 5 ≤ month ∧ month ≤ 7 then "Summer"
    else if 8 ≤ month ∧ month ≤ 10 then "Fall"
    else "Winter"
  else ctx.dbg.forceSeason

/-- `INACTIVE_TIME_PENALTY` from `time.js`. -/
def INACTIVE_TIME_PENALTY : ℚ := 1/20

/-- The quadratic ramp computed inside `getTimeMultiplier` for one
period containing the current minute. -/
def rampValue (p : TimePeriod) (now : ℚ) : ℚ :=
  if now ≤ p.peak then
    1 + (p.multiplier - 1) *
      (if p.peak - p.start > 0 then (now - p.start) / (p.peak - p.start) else 1) ^ 2
  else
    1 + (p.multiplier - 1) *
      (if p.stop - p.peak > 0 then (p.stop - now) / (p.stop - p.peak) else 1) ^ 2

/-- `getTimeMultiplier` from `time.js`. -/
def getTimeMultiplier (ctx : Ctx) (monsterActiveTimes : List String) : ℚ :=
  if monsterActiveTimes.contains "any" then 1
  else
    let now := currentMins ctx
    let highestMultiplier :=
      monsterActiveTimes.foldl (fun highest periodName =>
        match TIME_PERIODS.lookup periodName with
        | none => highest
        | some period =>
          if period.start ≤ now ∧ now ≤ period.stop then
            let currentMultiplier := rampValue period now
            if currentMultiplier > highest then currentMultiplier else highest
          else highest) 0
    if highestMultiplier = 0 then INACTIVE_TIME_PENALTY else highestMultiplier

/-- `getDateSeed` from `time.js`: the `YYYY-MM-DD` string built from
the UTC calendar fields. -/
def padStart2 (s : String) : String :=
  if 2 ≤ s.length then s else String.mk (List.replicate (2 - s.length) '0') ++ s

/-- `getDateSeed` from `time.js`. -/
def getDateSeed (d : JsDate) : String :=
  toString d.utcYear ++ "-" ++ padStart2 (toString (d.utcMonth + 1)) ++ "-" ++
    padStart2 (toString d.utcDay)

/-- The per-event global multipliers, `GLOBAL_MODIFIERS.events`. -/
structure EventModifiers where
  halloween : ℚ
  deriving DecidableEq

/-- `GLOBAL_MODIFIERS` from `config.js`: default magnitudes, additive
for bonuses and multiplicative for penalties. -/
structure GlobalModifiers where
  bonuses : List (String × ℚ)
  penalties : List (String × ℚ)
  events : EventModifiers
  deriving DecidableEq

/-- `GLOBAL_MODIFIERS` from `config.js`. -/
def GLOBAL_MODIFIERS : GlobalModifiers :=
  { bonuses := [("witchingHour", 3/20), ("midnight", 7/100), ("fullMoon", 3/25),
                ("yule", 1/10), ("midsummer", 1/4)],
    penalties := [("day", 2/5), ("earlyMorning", 3/5), ("evening", 3/5),
                  ("night", 7/10), ("lateNight", 3/5)],
    events := ⟨5/2⟩ }

/-- The activation condition of one entry of `MODIFIER_DEFINITIONS`.
Each constructor stands for the closure stored in `config.js`. -/
inductive ModCondition where
  | witchingHour
  | period (name : String)
  | fullMoon
  | yule
  | midsummer
  deriving DecidableEq

/-- Evaluates a stored condition closure against the calendar state. -/
def evalCondition (c : ModCondition) (ctx : Ctx) : Bool :=
  match c with
  | .witchingHour => isWitchingHour ctx
  | .period n => isPeriod ctx n
  | .fullMoon => isFullMoon ctx
  | .yule => isYule ctx
  | .midsummer => isMidsummer ctx

/-- `MODIFIER_DEFINITIONS` from `config.js`: modifier name →
(condition, display label), grouped by category key. -/
def MODIFIER_DEFINITIONS : List (String × List (String × ModCondition × String)) :=
  [("bonuses",
    [("witchingHour", (.witchingHour, "Witching Hour")),
     ("midnight",     (.period "Midnight", "Midnight")),
     ("fullMoon",     (.fullMoon, "Full Moon")),
     ("yule",         (.yule, "Yule Season")),
     ("midsummer",    (.midsummer, "Midsummer"))]),
   ("penalties",
    [("day",          (.period "Day", "Daylight")),
     ("evening",      (.period "Evening", "Evening")),
     ("earlyMorning", (.period "Early Morning", "Early Morning")),
     ("night",        (.period "Night", "Night")),
     ("lateNight",    (.period "Late Night", "Late Night"))])]

/-- `MODIFIER_DEFINITIONS[type]?.[modifierName]` from `monster.js`. -/
def lookupDefinition (ty name : String) : Option (ModCondition × String) :=
  match MODIFIER_DEFINITIONS.lookup ty with
  | some table => table.lookup name
  | none => none

/-- `GLOBAL_MODIFIERS[type]` for the two category keys reachable in
`_evaluateModifier`. -/
def globalByType (ty : String) : List (String × ℚ) :=
  if ty = "bonuses" then GLOBAL_MODIFIERS.bonuses
  else if ty = "penalties" then GLOBAL_MODIFIERS.penalties
  else []

/-- `LOCATION_GROUPS` from `config.js`. -/
def LOCATION_GROUPS : List (String × List String) :=
  [("settlements_urban", ["P.PPL", "P.PPLA", "P.PPLA2", "P.PPLA3", "P.PPLA4", "P.PPLC", "S.SQR"]),
   ("settlements_rural", ["P.PPLF", "P.PPLL", "S.FRM", "S.FRMT", "S.HUT", "S.HUTS", "L.LCTY"]),
   ("settlements_all", ["P.PPL", "P.PPLA", "P.PPLA2", "P.PPLA3", "P.PPLA4", "P.PPLC", "P.PPLF", "P.PPLL"]),
   ("structures_affluent", ["S.PAL", "S.CSTL", "S.HSEC", "S.EST"]),
   ("structures_abandoned", ["P.PPLH", "P.PPLQ", "P.PPLW", "S.RUIN", "R.RRQ", "S.AIRQ", "S.BDGQ", "S.DAMQ", "S.FRMQ", "S.CMPQ", "S.MLSGQ"]),
   ("structures_historic", ["A.ADM1H", "A.ADM2H", "A.ADM3H", "A.ADM4H", "L.BTL", "S.ANS", "S.HSTS", "S.MNMT", "S.WALLA", "R.RDA"]),
   ("structures_defensive", ["S.FT", "S.WALL", "S.WALLA", "S.TOWR", "L.MILB", "L.NVB", "S.INSM"]),
   ("structures_industrial", ["S.MFG", "S.ML", "S.FNDY", "S.PS", "S.OILR", "S.WTRW", "S.DIKE", "S.DAM", "S.LOCK"]),
   ("structures_mines_quarries", ["S.MN", "S.MNC", "S.MNFE", "S.MNAU", "S.MNQ", "S.MNQR", "L.MNA"]),
   ("places_of_worship", ["S.CH", "S.MSQE", "S.SYG", "S.TMPL", "S.PGDA", "S.SHRN"]),
   ("places_of_seclusion", ["S.MSTY", "S.CVNT", "S.RLGR", "S.HERM"]),
   ("places_of_death", ["S.CMTY", "S.GRVE", "S.TMB", "S.BUR", "L.BTL", "S.WRCK"]),
   ("places_sacred_all", ["S.CH", "S.MSQE", "S.SYG", "S.TMPL", "S.PGDA", "S.SHRN", "S.MSTY", "S.CVNT", "S.RLGR", "S.HERM", "S.CMTY", "S.GRVE", "S.TMB", "S.BUR", "L.BTL", "S.RLG"]),
   ("forests_dense", ["V.FRST", "V.FRSTF"]),
   ("forests_sparse", ["V.GROVE", "V.HTH", "V.SCRB", "L.CLG"]),
   ("forests_all", ["V.FRST", "V.FRSTF", "V.GROVE", "V.HTH", "V.SCRB"]),
   ("cultivated_land", ["L.AGRC", "V.CULT", "L.FLDI", "S.NSY", "V.OCH", "V.VIN"]),
   ("grasslands", ["V.GRSLD", "V.MDW", "L.GRAZ", "L.PRK", "L.CMN"]),
   ("mountains_high", ["T.MT", "T.MTS", "T.PK", "T.PKS", "T.VLC", "T.NTK"]),
   ("mountains_low", ["T.HLL", "T.HLLS", "T.RDGE", "T.SPUR", "T.UPLD", "T.MESA"]),
   ("mountains_all", ["T.MT", "T.MTS", "T.PK", "T.PKS", "T.VLC", "T.NTK", "T.HLL", "T.HLLS", "T.RDGE", "T.SPUR", "T.UPLD"]),
   ("underground_natural", ["S.CAVE", "S.BUR", "R.TNLN", "H.LKSB"]),
   ("canyons_and_gorges", ["T.CNYN", "T.GRGE", "T.VALG", "T.RVN", "T.FSR"]),
   ("rocky_terrain", ["T.RK", "T.RKS", "T.BLDR", "T.SCRP", "T.TAL", "T.KRST", "T.LAVA"]),
   ("deserts_and_barrens", ["T.DSRT", "T.ERG", "T.HMDA", "T.REG", "L.LAND", "L.SALT", "T.BDLD"]),
   ("water_freshwater_large", ["H.LK", "H.LKS", "H.RSV", "H.LGN"]),
   ("water_freshwater_moving", ["H.STM", "H.STMS", "H.CNL", "H.RPDS", "H.FLLS"]),
   ("water_coastal", ["H.SEA", "H.OCN", "H.STRT", "H.BAY", "H.GULF", "H.FJD", "H.SD", "T.BCH"]),
   ("water_islands", ["T.ISL", "T.ISLS", "T.ISLET", "T.ATOL"]),
   ("water_wetlands", ["H.SWMP", "H.MRSH", "H.BOG", "V.TUND", "H.WTLD", "L.PEAT"]),
   ("transport_roads", ["R.RD", "R.ST", "R.TRL", "R.CSWY"]),
   ("transport_railways", ["R.RR", "R.RSTN", "R.RSTP", "R.RYD"]),
   ("transport_bridges_tunnels", ["S.BDG", "R.TNL", "R.TNLRD", "R.TNLRR"]),
   ("transport_hubs", ["S.AIRP", "L.PRT", "S.FYT", "S.RSTN", "S.BUSTN", "S.MAR"])]

/-- A restriction set on a monster (`monster.restriction`). -/
structure Restriction where
  requiresFullMoon : Bool
  requiresDark : Bool
  requiresNight : Bool
  deriving DecidableEq

/-- Per-monster override magnitudes (`monster.overrides`), keyed by
category and modifier name. -/
structure Overrides where
  bonuses : List (String × ℚ)
  penalties : List (String × ℚ)
  deriving DecidableEq

/-- A monster definition as consumed by the rules and simulation
engines (`monster.js`, `spottingCalculator.js`). -/
structure Monster where
  id : String
  spottingChance : ℚ
  activeSeasons : List String
  activeTime : List String
  restriction : Option Restriction
  bonuses : List String
  penalties : List String
  overrides : Option Overrides
  locations : List String
  deriving DecidableEq

/-- `this.overrides?.[type]?.[modifierName]` from `monster.js`. -/
def overrideLookup (m : Monster) (ty name : String) : Option ℚ :=
  match m.overrides with
  | none => none
  | some o =>
    (if ty = "bonuses" then o.bonuses
     else if ty = "penalties" then o.penalties
     else []).lookup name

/-- `Monster._evaluateModifier` from `monster.js`.  Returns
`some (value, label)` when the modifier is defined and its condition
holds, `none` otherwise.  The value is
`overrides?.[type]?.[name] || GLOBAL_MODIFIERS[type][name]`: the
JavaScript `||` falls back to the default when the override is absent
or equal to 0. -/
def evaluateModifier (m : Monster) (ctx : Ctx) (modifierName ty : String) :
    Option (ℚ × String) :=
  match lookupDefinition ty modifierName with
  | some (cond, label) =>
    if evalCondition cond ctx then
      let dflt := ((globalByType ty).lookup modifierName).getD 0
      let value :=
        match overrideLookup m ty modifierName with
        | some v => if v = 0 then dflt else v
        | none => dflt
      some (value, label)
    else none
  | none => none

/-- One step of the calculation breakdown (`monster.js`). -/
inductive Step where
  | final (label : String) (value : ℚ)
  | base (label : String) (value : ℚ)
  | multiplier (label : String) (subLabel : Option String) (value : ℚ)
  | bonus (label : String) (value : ℚ)
  | penalty (label : String) (value : ℚ)
  | impossible (reason : String)
  deriving DecidableEq

/-- Whether a step has type `impossible`. -/
def isImpossibleStep : Step → Bool
  | .impossible _ => true
  | _ => false

/-- Whether a step has type `base`. -/
def isBaseStep : Step → Bool
  | .base _ _ => true
  | _ => false

/-- Whether a step has type `bonus`. -/
def isBonusStep : Step → Bool
  | .bonus _ _ => true
  | _ => false

/-- Whether a step has type `penalty`. -/
def isPenaltyStep : Step → Bool
  | .penalty _ _ => true
  | _ => false

/-- The `label` field of a step (`impossible` steps carry none). -/
def stepLabel : Step → Option String
  | .final l _ => some l
  | .base l _ => some l
  | .multiplier l _ _ => some l
  | .bonus l _ => some l
  | .penalty l _ => some l
  | .impossible _ => none

/-- The result of `Monster.calculateSpottingData`. -/
structure SpottingData where
  chance : ℚ
  event : Option String
  breakdown : List Step
  deriving DecidableEq

/-- The `failed` list built by `Monster._checkRestrictions`. -/
def restrictionFailures (m : Monster) (ctx : Ctx) : List String :=
  match m.restriction with
  | none => []
  | some r =>
    (if r.requiresFullMoon && !isFullMoon ctx then ["Full Moon"] else []) ++
    (if r.requiresDark && !isDark ctx then ["Darkness"] else []) ++
    (if r.requiresNight && !isNight ctx then ["Night"] else [])

/-- The bonus loop of `calculateSpottingData`: additive, in declared
order. -/
def applyBonuses (m : Monster) (ctx : Ctx) (acc : ℚ × List Step) : ℚ × List Step :=
  m.bonuses.foldl (fun acc bonusName =>
    match evaluateModifier m ctx bonusName "bonuses" with
    | some (v, label) => (acc.1 + v, acc.2 ++ [Step.bonus label v])
    | none => acc) acc

/-- The penalty loop of `calculateSpottingData`: multiplicative, in
declared order. -/
def applyPenalties (m : Monster) (ctx : Ctx) (acc : ℚ × List Step) : ℚ × List Step :=
  m.penalties.foldl (fun acc penaltyName =>
    match evaluateModifier m ctx penaltyName "penalties" with
    | some (v, label) => (acc.1 * v, acc.2 ++ [Step.penalty label v])
    | none => acc) acc

/-- The shared tail of `calculateSpottingData`: debug multiplier,
clamp to [0, 1], and prepend the `final` step. -/
def applyFinalSteps (ctx : Ctx) (chance : ℚ) (event : Option String)
    (breakdown : List Step) : SpottingData :=
  let acc :=
    if ctx.dbg.multiplier = 1 then (chance, breakdown)
    else (chance * ctx.dbg.multiplier,
          breakdown ++ [Step.multiplier "Debug Multiplier" none ctx.dbg.multiplier])
  let finalChance := max 0 (min acc.1 1)
  ⟨finalChance, event, Step.final "Final Chance" finalChance :: acc.2⟩

/-- `Monster.calculateSpottingData` from `monster.js`. -/
def calculateSpottingData (m : Monster) (ctx : Ctx) : SpottingData :=
  if isHalloween ctx then
    let multiplier := GLOBAL_MODIFIERS.events.halloween
    applyFinalSteps ctx (m.spottingChance * multiplier) (some "halloween")
      [Step.multiplier "Global Multiplier" none multiplier]
  else
    let failed := restrictionFailures m ctx
    if failed.isEmpty then
      let acc0 := (m.spottingChance, [Step.base "Base Chance" m.spottingChance])
      let currentSeason := getCurrentSeason ctx
      let acc1 :=
        if m.activeSeasons.contains currentSeason then acc0
        else (acc0.1 / 2, acc0.2 ++ [Step.multiplier "Season" (some currentSeason) (1/2)])
      let tm := getTimeMultiplier ctx m.activeTime
      let acc2 :=
        if tm = 1 then acc1
        else (acc1.1 * tm, acc1.2 ++ [Step.multiplier "Time" (some (getCurrentPeriodName ctx)) tm])
      let acc3 := applyBonuses m ctx acc2
      let acc4 := applyPenalties m ctx acc3
      applyFinalSteps ctx acc4.1 none acc4.2
    else
      ⟨0, none, [Step.impossible ("Requires: " ++ String.intercalate ", " failed)]⟩

/-- A location pool entry, as read by the simulation engine. -/
structure Location where
  name : String
  latitude : ℚ
  longitude : ℚ
  deriving DecidableEq

/-- A sampled placement: the spread copy of a base location plus the
jittered `lat`/`lng` fields added by `generateMonsterLocations`. -/
structure SpottedLocation where
  name : String
  latitude : ℚ
  longitude : ℚ
  lat : ℚ
  lng : ℚ
  deriving DecidableEq

/-- The read-only slices of `appState` consumed by the simulation
engine: the two location indexes (absent keys map to `[]`). -/
structure AppState where
  locationsByFeatureCode : String → List Location
  locationsByFeatureClass : String → List Location

/-- `Math.floor` of a nonnegative number, as used to index the pool. -/
def jsFloorNat (q : ℚ) : ℕ := (⌊q⌋).toNat

/-- The `resolvedFeatureCodes` set of `generateMonsterLocations`
(JavaScript `Set`, so insertion order with deduplication). -/
def resolvedFeatureCodes (m : Monster) : List String :=
  m.locations.foldl (fun acc locIdentifier =>
    match LOCATION_GROUPS.lookup locIdentifier with
    | some codes => codes.foldl (fun a c => if a.contains c then a else a ++ [c]) acc
    | none => if acc.contains locIdentifier then acc else acc ++ [locIdentifier]) []

/-- The `locationPool` of `generateMonsterLocations`: codes containing
a dot are looked up by full feature code, others by feature class. -/
def buildPool (st : AppState) (resolved : List String) : List Location :=
  resolved.foldl (fun pool code =>
    pool ++ (if code.contains '.' then st.locationsByFeatureCode code
             else st.locationsByFeatureClass code)) []

/-- The sampling loop of `generateMonsterLocations`.  `k` is the
position in the random stream; each sighting consumes three draws
(pool index, latitude jitter, longitude jitter). -/
def genLoop (pool : List Location) (count : ℕ) (rng : ℕ → ℚ) (k : ℕ) :
    List SpottedLocation × ℕ :=
  match count with
  | 0 => ([], k)
  | c + 1 =>
    let baseLocation := pool.getD (jsFloorNat (rng k * pool.length)) ⟨"", 0, 0⟩
    let spotted : SpottedLocation :=
      ⟨baseLocation.name, baseLocation.latitude, baseLocation.longitude,
       baseLocation.latitude + (rng (k + 1) - 1/2) * (1/100),
       baseLocation.longitude + (rng (k + 2) - 1/2) * (1/100)⟩
    let rest := genLoop pool c rng (k + 3)
    (spotted :: rest.1, rest.2)

/-- `generateMonsterLocations` from `spottingCalculator.js`, returning
the placements together with the next random-stream position. -/
def generateMonsterLocations (st : AppState) (m : Monster) (count : ℕ)
    (rng : ℕ → ℚ) (k : ℕ) : List SpottedLocation × ℕ :=
  if count = 0 then ([], k)
  else
    let pool := buildPool st (resolvedFeatureCodes m)
    if pool = [] then ([], k)
    else genLoop pool count rng k

/-- `getLikelihood` from `spottingCalculator.js`. -/
def getLikelihood (count : ℤ) : String :=
  if count ≤ 0 then "Very Low"
  else if count ≤ 2 then "Low"
  else if count ≤ 5 then "Medium"
  else "High"

/-- One monster's record in the result of `calculateSpottedMonsters`. -/
structure OutputRecord where
  count : ℕ
  locations : List SpottedLocation
  likelihood : String
  currentChance : ℚ
  breakdown : List Step
  event : Option String
  deriving DecidableEq

/-- `maxSpotted` from `spottingCalculator.js`. -/
def maxSpotted : ℕ := 40

/-- The Bernoulli loop of `calculateSpottedMonsters`: the number of
the first `maxSpotted` stream values that fall below the chance. -/
def bernoulliCount (rng : ℕ → ℚ) (chance : ℚ) : ℕ :=
  (List.range maxSpotted).countP (fun i => decide (rng i < chance))

/-- The per-monster body of `calculateSpottedMonsters`, returning the
output record together with the number of random draws consumed. -/
def simulateMonster (st : AppState) (ctx : Ctx) (streamFor : String → ℕ → ℚ)
    (m : Monster) : OutputRecord × ℕ :=
  let monsterRNG := streamFor (getDateSeed ctx.date ++ m.id)
  let spottingData := calculateSpottingData m ctx
  if spottingData.chance ≤ 0 then
    (⟨0, [],
      if spottingData.breakdown.any isImpossibleStep then "Impossible" else "Very Low",
      0, spottingData.breakdown, spottingData.event⟩, 0)
  else
    let spottedCount := bernoulliCount monsterRNG spottingData.chance
    let gen := generateMonsterLocations st m spottedCount monsterRNG maxSpotted
    (⟨spottedCount, gen.1, getLikelihood spottedCount, spottingData.chance,
      spottingData.breakdown, spottingData.event⟩, gen.2)

/-- `calculateSpottedMonsters` from `spottingCalculator.js`: the full
recomputation over all monsters, as an association list keyed by
monster id. -/
def calculateSpottedMonsters (st : AppState) (ctx : Ctx)
    (streamFor : String → ℕ → ℚ) (monsters : List Monster) :
    List (String × OutputRecord) :=
  monsters.map (fun m => (m.id, (simulateMonster st ctx streamFor m).1))

/-! ### Specification-side characterizations

These definitions follow the specification's wording (not the source)
and are compared with the source-derived functions above. -/

/-- Modelled from the spec: "for each habitat identifier, if it names
a known group, expand to its member feature codes; otherwise treat it
as a literal feature code". -/
def specExpands (locIdentifier c : String) : Prop :=
  match LOCATION_GROUPS.lookup locIdentifier with
  | some codes => c ∈ codes
  | none => c = locIdentifier

instance (i c : String) : Decidable (specExpands i c) := by
  unfold specExpands
  exact match LOCATION_GROUPS.lookup i with
  | some codes => inferInstanceAs (Decidable (c ∈ codes))
  | none => inferInstanceAs (Decidable (c = i))

/-- Modelled from the spec: the periods the entity is active in whose
closed interval contains the current minute-of-day. -/
def specMatchedPeriods (ctx : Ctx) (activeTimes : List String) : List TimePeriod :=
  activeTimes.filterMap (fun periodName =>
    match TIME_PERIODS.lookup periodName with
    | some p =>
      if p.start ≤ currentMins ctx ∧ currentMins ctx ≤ p.stop then some p else none
    | none => none)

/-! ### Concrete fixtures used by witnesses and counterexamples -/

/-- 2024-06-15 (UTC). -/
def dJune : JsDate := ⟨1718409600000, 2024, 5, 15⟩

/-- 2024-10-31, Halloween (UTC). -/
def dHall : JsDate := ⟨1730332800000, 2024, 9, 31⟩

/-- The default debug state: multiplier 1, no overrides. -/
def dbg0 : DebugState := ⟨1, none, none, "auto", none⟩

/-- A wall clock reading 12:00. -/
def wNoon : WallClock := ⟨12, 0, 0, 0⟩

/-- A wall clock reading 22:30. -/
def wNight : WallClock := ⟨22, 30, 0, 0⟩

/-- An app state with empty location indexes. -/
def st0 : AppState := ⟨fun _ => [], fun _ => []⟩

/-- A nocturnal summer monster with no restrictions or modifiers. -/
def mC1 : Monster := ⟨"troll", 1/2, ["Summer"], ["Night"], none, [], [], none, []⟩

/-- A constant random stream factory producing 1/2 forever. -/
def f0 : String → ℕ → ℚ := fun _ _ => 1/2

/-- A monster carrying a per-entity override of 0 for the `fullMoon`
bonus. -/
def mOv : Monster :=
  ⟨"wolf", 1/10, ["Summer"], ["any"], none, ["fullMoon"], [], some ⟨[("fullMoon", 0)], []⟩, []⟩

/-- A monster carrying a nonzero per-entity override for the
`fullMoon` bonus. -/
def mOv2 : Monster :=
  ⟨"wolf2", 1/10, ["Summer"], ["any"], none, ["fullMoon"], [], some ⟨[("fullMoon", 1/5)], []⟩, []⟩

/-- A calendar state with the full moon forced on. -/
def ctxFM : Ctx := ⟨dJune, ⟨1, none, some true, "auto", none⟩, wNoon⟩

/-- A monster that requires a full moon. -/
def mRes : Monster :=
  ⟨"werewolf", 1/2, ["Summer"], ["any"], some ⟨true, false, false⟩, [], [], none, []⟩

/-- A calendar state with the full moon forced off, Halloween forced
off, and a non-unit debug multiplier. -/
def ctxNoMoon : Ctx := ⟨dJune, ⟨5, none, some false, "auto", some false⟩, wNoon⟩

/-- A Halloween calendar state with debug multiplier 1. -/
def ctxHall : Ctx := ⟨dHall, dbg0, wNoon⟩

/-- A single location pool entry. -/
def loc0 : Location := ⟨"spot", 59, 18⟩

/-- An app state whose `P.PPL` feature-code index holds one location. -/
def st10 : AppState := ⟨fun c => if c = "P.PPL" then [loc0] else [], fun _ => []⟩

/-- A monster whose habitat is the literal feature code `P.PPL`. -/
def m10 : Monster := ⟨"nix", 1/2, ["Summer"], ["any"], none, [], [], none, ["P.PPL"]⟩

/-- A calendar state whose time is forced to 21:00. -/
def ctx2100 : Ctx := ⟨dJune, ⟨1, some (21, 0), none, "auto", none⟩, wNoon⟩

/-- A calendar state whose time is forced to 22:30. -/
def ctx2230 : Ctx := ⟨dJune, ⟨1, some (22, 30), none, "auto", none⟩, wNoon⟩

/-- A calendar state whose time is forced to 23:59. -/
def ctx2359 : Ctx := ⟨dJune, ⟨1, some (23, 59), none, "auto", none⟩, wNoon⟩

/-! ### Helper lemmas -/

theorem applyFinalSteps_chance_mem (ctx : Ctx) (c : ℚ) (e : Option String)
    (bd : List Step) :
    0 ≤ (applyFinalSteps ctx c e bd).chance ∧ (applyFinalSteps ctx c e bd).chance ≤ 1 := by
  unfold applyFinalSteps
  refine ⟨le_max_left 0 _, max_le (by norm_num) (min_le_right _ 1)⟩

theorem getLikelihood_ne_impossible (n : ℤ) : getLikelihood n ≠ "Impossible" := by
  unfold getLikelihood
  split_ifs <;> decide

/-! ### Claims -/

/-- C5: For every entity, calendar state, and debug multiplier, the
probability returned by `calculateSpottingData` lies in [0, 1], even
when intermediate steps push the running value outside the interval
before the final clamp. -/
theorem claim5_probability_clamped (m : Monster) (ctx : Ctx) :
    0 ≤ (calculateSpottingData m ctx).chance ∧ (calculateSpottingData m ctx).chance ≤ 1 := by
  unfold calculateSpottingData
  split
  · exact applyFinalSteps_chance_mem ..
  · dsimp only
    split
    · exact applyFinalSteps_chance_mem ..
    · exact ⟨le_refl 0, by norm_num⟩

/-- C4: When `isHalloween()` is true, the probability equals
`clamp(base × 2.5 × debugMultiplier, 0, 1)`, the event tag is
`halloween`, and the breakdown contains no base, season, time, bonus,
penalty, or impossible steps; for base 0.1 and debug multiplier 1 the
breakdown is exactly `[{final, 0.25}, {multiplier, "Global
Multiplier", 2.5}]`. -/
theorem claim4_halloween_override (m : Monster) (ctx : Ctx)
    (hH : isHalloween ctx = true) :
    (calculateSpottingData m ctx).chance =
      max 0 (min (m.spottingChance * (5/2) * ctx.dbg.multiplier) 1) ∧
    (calculateSpottingData m ctx).event = some "halloween" ∧
    (∀ s ∈ (calculateSpottingData m ctx).breakdown,
      isBaseStep s = false ∧ isBonusStep s = false ∧ isPenaltyStep s = false ∧
      isImpossibleStep s = false ∧ stepLabel s ≠ some "Season" ∧ stepLabel s ≠ some "Time") ∧
    (m.spottingChance = 1/10 → ctx.dbg.multiplier = 1 →
      (calculateSpottingData m ctx).breakdown =
        [Step.final "Final Chance" (1/4), Step.multiplier "Global Multiplier" none (5/2)]) := by
  by_cases hmul : ctx.dbg.multiplier = 1
  · have hsd : calculateSpottingData m ctx =
        ⟨max 0 (min (m.spottingChance * (5/2)) 1), some "halloween",
         [Step.final "Final Chance" (max 0 (min (m.spottingChance * (5/2)) 1)),
          Step.multiplier "Global Multiplier" none (5/2)]⟩ := by
      unfold calculateSpottingData applyFinalSteps
      simp [hH, hmul, GLOBAL_MODIFIERS]
    rw [hsd]
    refine ⟨by rw [hmul, mul_one], rfl, ?_, ?_⟩
    · intro s hs
      rcases hs with _ | ⟨_, hs⟩
      · exact ⟨rfl, rfl, rfl, rfl, by simp [stepLabel], by simp [stepLabel]⟩
      rcases hs with _ | ⟨_, hs⟩
      · exact ⟨rfl, rfl, rfl, rfl, by simp [stepLabel], by simp [stepLabel]⟩
      cases hs
    · intro hb _
      rw [hb]
      norm_num
  · have hsd : calculateSpottingData m ctx =
        ⟨max 0 (min (m.spottingChance * (5/2) * ctx.dbg.multiplier) 1), some "halloween",
         [Step.final "Final Chance"
            (max 0 (min (m.spottingChance * (5/2) * ctx.dbg.multiplier) 1)),
          Step.multiplier "Global Multiplier" none (5/2),
          Step.multiplier "Debug Multiplier" none ctx.dbg.multiplier]⟩ := by
      unfold calculateSpottingData applyFinalSteps
      simp [hH, hmul, GLOBAL_MODIFIERS]
    rw [hsd]
    refine ⟨rfl, rfl, ?_, ?_⟩
    · intro s hs
      rcases hs with _ | ⟨_, hs⟩
      · exact ⟨rfl, rfl, rfl, rfl, by simp [stepLabel], by simp [stepLabel]⟩
      rcases hs with _ | ⟨_, hs⟩
      · exact ⟨rfl, rfl, rfl, rfl, by simp [stepLabel], by simp [stepLabel]⟩
      rcases hs with _ | ⟨_, hs⟩
      · exact ⟨rfl, rfl, rfl, rfl, by simp [stepLabel], by simp [stepLabel]⟩
      cases hs
    · intro _ hmul1
      exact absurd hmul1 hmul

/-- C4 witness: Halloween 2024-10-31 with a base-0.1 entity and debug
multiplier 1 yields probability 0.25, event `halloween`, and the
two-step breakdown. -/
theorem claim4_halloween_override_witness :
    (calculateSpottingData mOv ctxHall).chance =
      max 0 (min (mOv.spottingChance * (5/2) * ctxHall.dbg.multiplier) 1) ∧
    (calculateSpottingData mOv ctxHall).event = some "halloween" ∧
    (calculateSpottingData mOv ctxHall).breakdown =
      [Step.final "Final Chance" (1/4), Step.multiplier "Global Multiplier" none (5/2)] := by
  have h := claim4_halloween_override mOv ctxHall (by decide)
  exact ⟨h.1, h.2.1, h.2.2.2 rfl rfl⟩

/-- C2 counterexample: the claim says an active modifier whose
per-entity override is 0 applies magnitude 0; on the code the
JavaScript `||` discards the 0 override and the global default 0.12 is
applied instead. -/
theorem claim2_override_counterexample :
    overrideLookup mOv "bonuses" "fullMoon" = some 0 ∧
    evaluateModifier mOv ctxFM "fullMoon" "bonuses" = some (3/25, "Full Moon") ∧
    evaluateModifier mOv ctxFM "fullMoon" "bonuses" ≠ some (0, "Full Moon") := by
  with_unfolding_all decide

/-- C2 (amended): when an entity's modifier predicate is active, the
magnitude equals the per-entity override whenever one is present and
nonzero, and equals the global default otherwise — in particular an
override of 0 falls back to the global default. -/
theorem claim2_override_magnitude (m : Monster) (ctx : Ctx) (ty name : String)
    (cond : ModCondition) (label : String)
    (hdef : lookupDefinition ty name = some (cond, label))
    (hact : evalCondition cond ctx = true) :
    (∀ v : ℚ, overrideLookup m ty name = some v → v ≠ 0 →
      evaluateModifier m ctx name ty = some (v, label)) ∧
    ((overrideLookup m ty name = none ∨ overrideLookup m ty name = some 0) →
      evaluateModifier m ctx name ty = some (((globalByType ty).lookup name).getD 0, label)) := by
  unfold evaluateModifier
  rw [hdef]
  simp only [hact, if_true]
  constructor
  · intro v hv hvne
    rw [hv]
    simp [hvne]
  · rintro (h | h) <;> (rw [h]; try simp)

/-- C2 witness: a nonzero override (0.2 for the `fullMoon` bonus) is
applied in place of the global default. -/
theorem claim2_override_magnitude_witness :
    evaluateModifier mOv2 ctxFM "fullMoon" "bonuses" = some (1/5, "Full Moon") :=
  (claim2_override_magnitude mOv2 ctxFM "bonuses" "fullMoon" .fullMoon "Full Moon"
      (by decide) (by decide)).1 (1/5) (by with_unfolding_all decide)
    (by norm_num)

/-- C3: on a non-Halloween calendar state, an entity with an unmet
hard restriction gets probability exactly 0, event null, and a
breakdown that is exactly one `impossible` step naming every unmet
restriction comma-joined, for every debug multiplier; the simulation
then emits count 0, no locations, likelihood `Impossible`, and
consumes zero random draws. -/
theorem claim3_restriction_short_circuit (st : AppState) (ctx : Ctx)
    (f : String → ℕ → ℚ) (m : Monster)
    (hH : isHalloween ctx = false)
    (hfail : restrictionFailures m ctx ≠ []) :
    calculateSpottingData m ctx =
      ⟨0, none,
       [Step.impossible ("Requires: " ++ String.intercalate ", " (restrictionFailures m ctx))]⟩ ∧
    (simulateMonster st ctx f m).1 =
      ⟨0, [], "Impossible", 0,
       [Step.impossible ("Requires: " ++ String.intercalate ", " (restrictionFailures m ctx))],
       none⟩ ∧
    (simulateMonster st ctx f m).2 = 0 := by
  have h1 : calculateSpottingData m ctx =
      ⟨0, none,
       [Step.impossible ("Requires: " ++ String.intercalate ", " (restrictionFailures m ctx))]⟩ := by
    unfold calculateSpottingData
    simp only [hH, Bool.false_eq_true, if_false]
    have : (restrictionFailures m ctx).isEmpty = false := by
      cases hempty : restrictionFailures m ctx
      · exact absurd hempty hfail
      · rfl
    simp only [this, Bool.false_eq_true, if_false]
  refine ⟨h1, ?_, ?_⟩
  · unfold simulateMonster
    rw [h1]
    simp [isImpossibleStep]
  · unfold simulateMonster
    rw [h1]
    simp [isImpossibleStep]

/-- C3 witness: a full-moon-requiring monster on a night with the full
moon forced off, under debug multiplier 5, yields the impossible
record and zero draws. -/
theorem claim3_restriction_short_circuit_witness :
    calculateSpottingData mRes ctxNoMoon =
      ⟨0, none, [Step.impossible "Requires: Full Moon"]⟩ ∧
    (simulateMonster st0 ctxNoMoon f0 mRes).1 =
      ⟨0, [], "Impossible", 0, [Step.impossible "Requires: Full Moon"], none⟩ ∧
    (simulateMonster st0 ctxNoMoon f0 mRes).2 = 0 := by
  have h := claim3_restriction_short_circuit st0 ctxNoMoon f0 mRes (by decide) (by decide)
  have hfails : restrictionFailures mRes ctxNoMoon = ["Full Moon"] := by decide
  rw [hfails] at h
  exact h

/-- C7: evaluating `getMoonPhaseIcon` at 1999-01-01T00:00Z, a date
earlier than the reference new moon, yields `undefined` (no icon): the
computed index `Math.round(phase*8) % 8` is negative, contradicting
the claim that the index is always within the bounds of the 8-element
icon array. -/
theorem claim7_moon_phase_out_of_bounds :
    getMoonPhaseIcon 915148800000 = none ∧
    jsRem (jsRound ((jsFmod ((915148800000 - knownNewMoonMs : ℤ) / 86400000 : ℚ)
      LUNAR_MONTH / LUNAR_MONTH) * 8)) 8 = -4 := by
  with_unfolding_all decide

/-- C8: `getLikelihood` maps counts to bands by the fixed thresholds
(≤0 Very Low, 1–2 Low, 3–5 Medium, ≥6 High); the counts
{0,1,2,3,5,6,40} map as listed; and `Impossible` arises only on the
probability ≤ 0 path when the breakdown holds an `impossible` step,
never from a simulated count. -/
theorem claim8_likelihood_bands :
    (∀ n : ℤ,
      (n ≤ 0 → getLikelihood n = "Very Low") ∧
      (1 ≤ n ∧ n ≤ 2 → getLikelihood n = "Low") ∧
      (3 ≤ n ∧ n ≤ 5 → getLikelihood n = "Medium") ∧
      (6 ≤ n → getLikelihood n = "High")) ∧
    (([0, 1, 2, 3, 5, 6, 40] : List ℤ).map getLikelihood =
      ["Very Low", "Low", "Low", "Medium", "Medium", "High", "High"]) ∧
    (∀ n : ℤ, getLikelihood n ≠ "Impossible") ∧
    (∀ (st : AppState) (ctx : Ctx) (f : String → ℕ → ℚ) (m : Monster),
      (simulateMonster st ctx f m).1.likelihood = "Impossible" →
      (calculateSpottingData m ctx).chance ≤ 0 ∧
      (calculateSpottingData m ctx).breakdown.any isImpossibleStep = true) := by
  refine ⟨?_, by decide, getLikelihood_ne_impossible, ?_⟩
  · intro n
    refine ⟨?_, ?_, ?_, ?_⟩ <;> (intro h; unfold getLikelihood; split_ifs <;>
      first | rfl | omega)
  · intro st ctx f m h
    by_cases hch : (calculateSpottingData m ctx).chance ≤ 0
    · refine ⟨hch, ?_⟩
      unfold simulateMonster at h
      simp only [hch, if_true] at h
      by_cases hA : (calculateSpottingData m ctx).breakdown.any isImpossibleStep
      · exact hA
      · simp only [hA, Bool.false_eq_true, if_false] at h
        exact absurd h (by decide)
    · exfalso
      unfold simulateMonster at h
      simp only [hch, if_false] at h
      exact getLikelihood_ne_impossible _ h

/-- C8 witness: the thresholds at count 3 and the `Impossible` path at
the full-moon-restricted fixture. -/
theorem claim8_likelihood_bands_witness :
    getLikelihood 3 = "Medium" ∧
    ((calculateSpottingData mRes ctxNoMoon).chance ≤ 0 ∧
      (calculateSpottingData mRes ctxNoMoon).breakdown.any isImpossibleStep = true) := by
  refine ⟨(claim8_likelihood_bands.1 3).2.2.1 (by omega), ?_⟩
  refine claim8_likelihood_bands.2.2.2 st0 ctxNoMoon f0 mRes ?_
  with_unfolding_all decide

/-- C1 counterexample: with the forced-time override null and a fixed
date, entity set, and override set, two invocations whose wall-clock
times differ (12:00 vs 22:30) produce different output records — the
nocturnal entity's chance, count and breakdown all change, so the
recomputation is not independent of wall-clock time. -/
theorem claim1_determinism_counterexample :
    calculateSpottedMonsters st0 ⟨dJune, dbg0, wNoon⟩ f0 [mC1] ≠
    calculateSpottedMonsters st0 ⟨dJune, dbg0, wNight⟩ f0 [mC1] := by
  with_unfolding_all decide

/-- C10 counterexample: with a stream value of exactly 0 (the random
contract is the half-open range [0,1)), the latitude jitter is exactly
−0.005 degrees, so the jittered coordinate does not differ from the
base coordinate by strictly less than 0.005. -/
theorem claim10_jitter_counterexample :
    ((generateMonsterLocations st10 m10 1 (fun _ => 0) 0).1.map
      (fun s => s.lat - s.latitude)) = [-(1/200)] ∧
    ¬ (|(-(1/200) : ℚ)| < 1/200) := by
  with_unfolding_all decide

/-! ### C6: the time multiplier -/

theorem foldl_max_ge_init (l : List ℚ) (a : ℚ) : a ≤ l.foldl max a := by
  induction l generalizing a with
  | nil => exact le_refl a
  | cons x xs ih => exact le_trans (le_max_left a x) (ih (max a x))

theorem foldl_max_ge_mem (l : List ℚ) (a : ℚ) : ∀ x ∈ l, x ≤ l.foldl max a := by
  induction l generalizing a with
  | nil => intro x hx; cases hx
  | cons y ys ih =>
    intro x hx
    rcases List.mem_cons.mp hx with rfl | hx'
    · exact le_trans (le_max_right a _) (foldl_max_ge_init ys _)
    · exact ih (max a y) x hx'

theorem foldl_max_eq_init_or_mem (l : List ℚ) (a : ℚ) :
    l.foldl max a = a ∨ ∃ x ∈ l, l.foldl max a = x := by
  induction l generalizing a with
  | nil => exact Or.inl rfl
  | cons y ys ih =>
    rcases ih (max a y) with h | ⟨x, hx, hfx⟩
    · rcases max_choice a y with hm | hm
      · exact Or.inl (by rw [List.foldl_cons, h, hm])
      · exact Or.inr ⟨y, List.mem_cons_self y ys, by rw [List.foldl_cons, h, hm]⟩
    · exact Or.inr ⟨x, List.mem_cons_of_mem y hx, by rw [List.foldl_cons, hfx]⟩

theorem lookup_TIME_PERIODS_multiplier_ge (n : String) (p : TimePeriod)
    (h : TIME_PERIODS.lookup n = some p) : 1 ≤ p.multiplier := by
  unfold TIME_PERIODS at h
  simp only [List.lookup] at h
  repeat' split at h
  all_goals first
    | (cases h; norm_num)
    | cases h

theorem rampValue_ge_one (p : TimePeriod) (now : ℚ) (h : 1 ≤ p.multiplier) :
    1 ≤ rampValue p now := by
  unfold rampValue
  split <;>
    (split <;> nlinarith [sq_nonneg ((now - p.start) / (p.peak - p.start)),
      sq_nonneg ((p.stop - now) / (p.stop - p.peak)), sq_nonneg (1 : ℚ)])

theorem specMatchedPeriods_cons_none (ctx : Ctx) (n : String) (ns : List String)
    (hlk : TIME_PERIODS.lookup n = none) :
    specMatchedPeriods ctx (n :: ns) = specMatchedPeriods ctx ns := by
  unfold specMatchedPeriods
  rw [List.filterMap_cons]
  simp only [hlk]

theorem specMatchedPeriods_cons_out (ctx : Ctx) (n : String) (ns : List String)
    (p : TimePeriod) (hlk : TIME_PERIODS.lookup n = some p)
    (hin : ¬ (p.start ≤ currentMins ctx ∧ currentMins ctx ≤ p.stop)) :
    specMatchedPeriods ctx (n :: ns) = specMatchedPeriods ctx ns := by
  unfold specMatchedPeriods
  rw [List.filterMap_cons]
  simp only [hlk]
  rw [if_neg hin]

theorem specMatchedPeriods_cons_in (ctx : Ctx) (n : String) (ns : List String)
    (p : TimePeriod) (hlk : TIME_PERIODS.lookup n = some p)
    (hin : p.start ≤ currentMins ctx ∧ currentMins ctx ≤ p.stop) :
    specMatchedPeriods ctx (n :: ns) = p :: specMatchedPeriods ctx ns := by
  unfold specMatchedPeriods
  rw [List.filterMap_cons]
  simp only [hlk]
  rw [if_pos hin]

theorem timeFold_eq_foldl_max (ctx : Ctx) (ats : List String) (a : ℚ) :
    ats.foldl (fun highest periodName =>
      match TIME_PERIODS.lookup periodName with
      | none => highest
      | some period =>
        if period.start ≤ currentMins ctx ∧ currentMins ctx ≤ period.stop then
          if rampValue period (currentMins ctx) > highest then
            rampValue period (currentMins ctx)
          else highest
        else highest) a =
    ((specMatchedPeriods ctx ats).map (fun p => rampValue p (currentMins ctx))).foldl max a := by
  induction ats generalizing a with
  | nil => rfl
  | cons n ns ih =>
    rw [List.foldl_cons]
    cases hlk : TIME_PERIODS.lookup n with
    | none =>
      simp only [hlk]
      rw [specMatchedPeriods_cons_none ctx n ns hlk]
      exact ih a
    | some p =>
      simp only [hlk]
      by_cases hin : p.start ≤ currentMins ctx ∧ currentMins ctx ≤ p.stop
      · rw [specMatchedPeriods_cons_in ctx n ns p hlk hin, List.map_cons, List.foldl_cons,
          if_pos hin]
        have hmax : (if rampValue p (currentMins ctx) > a then rampValue p (currentMins ctx)
            else a) = max a (rampValue p (currentMins ctx)) := by
          rcases le_or_lt (rampValue p (currentMins ctx)) a with hle | hlt
          · rw [if_neg (not_lt_of_le hle), max_eq_left hle]
          · rw [if_pos hlt, max_eq_right (le_of_lt hlt)]
        rw [hmax]
        exact ih (max a (rampValue p (currentMins ctx)))
      · rw [specMatchedPeriods_cons_out ctx n ns p hlk hin, if_neg hin]
        exact ih a

theorem mem_specMatchedPeriods (ctx : Ctx) (ats : List String) (p : TimePeriod)
    (h : p ∈ specMatchedPeriods ctx ats) :
    ∃ n ∈ ats, TIME_PERIODS.lookup n = some p ∧
      p.start ≤ currentMins ctx ∧ currentMins ctx ≤ p.stop := by
  unfold specMatchedPeriods at h
  rw [List.mem_filterMap] at h
  obtain ⟨n, hn, hfn⟩ := h
  refine ⟨n, hn, ?_⟩
  cases hlk : TIME_PERIODS.lookup n with
  | none =>
    rw [hlk] at hfn
    simp at hfn
  | some q =>
    rw [hlk] at hfn
    simp only [] at hfn
    by_cases hin : q.start ≤ currentMins ctx ∧ currentMins ctx ≤ q.stop
    · rw [if_pos hin] at hfn
      cases hfn
      exact ⟨rfl, hin⟩
    · rw [if_neg hin] at hfn
      cases hfn

/-- C6: `getTimeMultiplier` returns 1 when the entity is active "any"
time; otherwise it returns the maximum quadratic-ramp multiplier over
the entity's named periods containing the current minute, or the
inactive-time penalty (strictly between 0 and 1) when none contains
it; for the Night period the ramp is 1.0 at minutes 1260 and 1439 and
2.2 at minute 1350. -/
theorem claim6_time_multiplier :
    (∀ (ctx : Ctx) (ats : List String), ats.contains "any" = true →
      getTimeMultiplier ctx ats = 1) ∧
    (∀ (ctx : Ctx) (ats : List String), ats.contains "any" = false →
      (specMatchedPeriods ctx ats = [] →
        getTimeMultiplier ctx ats = INACTIVE_TIME_PENALTY ∧
        0 < INACTIVE_TIME_PENALTY ∧ INACTIVE_TIME_PENALTY < 1) ∧
      (∀ p ∈ specMatchedPeriods ctx ats,
        rampValue p (currentMins ctx) ≤ getTimeMultiplier ctx ats) ∧
      (specMatchedPeriods ctx ats ≠ [] →
        ∃ p ∈ specMatchedPeriods ctx ats,
          getTimeMultiplier ctx ats = rampValue p (currentMins ctx))) ∧
    (getTimeMultiplier ctx2100 ["Night"] = 1 ∧
     getTimeMultiplier ctx2230 ["Night"] = 11/5 ∧
     getTimeMultiplier ctx2359 ["Night"] = 1) := by
  refine ⟨?_, ?_, ?_, ?_, ?_⟩
  · intro ctx ats h
    unfold getTimeMultiplier
    rw [h]
    rfl
  · intro ctx ats h
    have hfold := timeFold_eq_foldl_max ctx ats 0
    have hone : ∀ p ∈ specMatchedPeriods ctx ats, 1 ≤ rampValue p (currentMins ctx) := by
      intro p hp
      obtain ⟨n, _, hlk, _⟩ := mem_specMatchedPeriods ctx ats p hp
      exact rampValue_ge_one p _ (lookup_TIME_PERIODS_multiplier_ge n p hlk)
    unfold getTimeMultiplier
    rw [h]
    simp only [Bool.false_eq_true, if_false]
    rw [hfold]
    refine ⟨?_, ?_, ?_⟩
    · intro hemp
      rw [hemp]
      exact ⟨rfl, by norm_num [INACTIVE_TIME_PENALTY], by norm_num [INACTIVE_TIME_PENALTY]⟩
    · intro p hp
      have hge := foldl_max_ge_mem
        ((specMatchedPeriods ctx ats).map (fun p => rampValue p (currentMins ctx))) 0
        (rampValue p (currentMins ctx)) (List.mem_map_of_mem _ hp)
      have hpos : ((specMatchedPeriods ctx ats).map
          (fun p => rampValue p (currentMins ctx))).foldl max 0 ≠ 0 := by
        have h1 : (1 : ℚ) ≤ ((specMatchedPeriods ctx ats).map
            (fun p => rampValue p (currentMins ctx))).foldl max 0 :=
          le_trans (hone p hp) hge
        intro h0
        rw [h0] at h1
        norm_num at h1
      rw [if_neg hpos]
      exact hge
    · intro hne
      obtain ⟨p0, hp0⟩ := List.exists_mem_of_ne_nil _ hne
      have hge := foldl_max_ge_mem
        ((specMatchedPeriods ctx ats).map (fun p => rampValue p (currentMins ctx))) 0
        (rampValue p0 (currentMins ctx)) (List.mem_map_of_mem _ hp0)
      have hpos : ((specMatchedPeriods ctx ats).map
          (fun p => rampValue p (currentMins ctx))).foldl max 0 ≠ 0 := by
        have h1 : (1 : ℚ) ≤ ((specMatchedPeriods ctx ats).map
            (fun p => rampValue p (currentMins ctx))).foldl max 0 :=
          le_trans (hone p0 hp0) hge
        intro h0
        rw [h0] at h1
        norm_num at h1
      rw [if_neg hpos]
      rcases foldl_max_eq_init_or_mem
        ((specMatchedPeriods ctx ats).map (fun p => rampValue p (currentMins ctx))) 0 with
        h0 | ⟨x, hx, hfx⟩
      · exact absurd h0 hpos
      · rw [List.mem_map] at hx
        obtain ⟨p, hp, hpx⟩ := hx
        exact ⟨p, hp, by rw [hfx, hpx]⟩
  · with_unfolding_all decide
  · with_unfolding_all decide
  · with_unfolding_all decide

/-- C6 witness: an "any"-time entity gets multiplier 1, and a purely
nocturnal entity at noon gets the inactive-time penalty 0.05. -/
theorem claim6_time_multiplier_witness :
    getTimeMultiplier ⟨dJune, dbg0, wNoon⟩ ["any"] = 1 ∧
    getTimeMultiplier ⟨dJune, dbg0, wNoon⟩ ["Night"] = INACTIVE_TIME_PENALTY := by
  constructor
  · exact claim6_time_multiplier.1 ⟨dJune, dbg0, wNoon⟩ ["any"] (by decide)
  · exact ((claim6_time_multiplier.2.1 ⟨dJune, dbg0, wNoon⟩ ["Night"] (by decide)).1
      (by with_unfolding_all decide)).1

/-! ### C9: habitat resolution -/

theorem mem_dedupFold (codes : List String) (acc : List String) (c : String) :
    c ∈ codes.foldl (fun a x => if a.contains x then a else a ++ [x]) acc ↔
      c ∈ acc ∨ c ∈ codes := by
  induction codes generalizing acc with
  | nil => simp
  | cons x xs ih =>
    rw [List.foldl_cons, ih]
    by_cases hx : acc.contains x
    · rw [if_pos hx]
      have hxa : x ∈ acc := by simpa [List.contains, List.elem_eq_mem] using hx
      constructor
      · rintro (h | h)
        · exact Or.inl h
        · exact Or.inr (List.mem_cons_of_mem x h)
      · rintro (h | h)
        · exact Or.inl h
        · rcases List.mem_cons.mp h with rfl | h'
          · exact Or.inl hxa
          · exact Or.inr h'
    · rw [if_neg hx]
      simp only [List.mem_append, List.mem_singleton, List.mem_cons]
      tauto

theorem mem_resolvedFeatureCodes (m : Monster) (c : String) :
    c ∈ resolvedFeatureCodes m ↔ ∃ i ∈ m.locations, specExpands i c := by
  unfold resolvedFeatureCodes
  suffices h : ∀ (l : List String) (acc : List String),
      c ∈ l.foldl (fun acc locIdentifier =>
        match LOCATION_GROUPS.lookup locIdentifier with
        | some codes => codes.foldl (fun a c => if a.contains c then a else a ++ [c]) acc
        | none => if acc.contains locIdentifier then acc else acc ++ [locIdentifier]) acc ↔
      c ∈ acc ∨ ∃ i ∈ l, specExpands i c by
    rw [h m.locations []]
    simp
  intro l
  induction l with
  | nil => intro acc; simp
  | cons i is ih =>
    intro acc
    rw [List.foldl_cons]
    cases hlk : LOCATION_GROUPS.lookup i with
    | none =>
      simp only [hlk]
      rw [ih]
      have hexp : specExpands i c ↔ c = i := by unfold specExpands; rw [hlk]
      by_cases hi : acc.contains i
      · rw [if_pos hi]
        have hia : i ∈ acc := by simpa [List.contains, List.elem_eq_mem] using hi
        constructor
        · rintro (h | ⟨j, hj, hjc⟩)
          · exact Or.inl h
          · exact Or.inr ⟨j, List.mem_cons_of_mem i hj, hjc⟩
        · rintro (h | ⟨j, hj, hjc⟩)
          · exact Or.inl h
          · rcases List.mem_cons.mp hj with rfl | hj'
            · have hc := hexp.mp hjc
              subst hc
              exact Or.inl hia
            · exact Or.inr ⟨j, hj', hjc⟩
      · rw [if_neg hi]
        simp only [List.mem_append, List.mem_singleton]
        constructor
        · rintro (⟨h | h⟩ | ⟨j, hj, hjc⟩)
          · exact Or.inl h
          · exact Or.inr ⟨i, List.mem_cons_self i is, hexp.mpr h⟩
          · exact Or.inr ⟨j, List.mem_cons_of_mem i hj, hjc⟩
        · rintro (h | ⟨j, hj, hjc⟩)
          · exact Or.inl (Or.inl h)
          · rcases List.mem_cons.mp hj with rfl | hj'
            · exact Or.inl (Or.inr (hexp.mp hjc))
            · exact Or.inr ⟨j, hj', hjc⟩
    | some codes =>
      simp only [hlk]
      rw [ih, mem_dedupFold]
      have hexp : specExpands i c ↔ c ∈ codes := by unfold specExpands; rw [hlk]
      constructor
      · rintro (⟨h | h⟩ | ⟨j, hj, hjc⟩)
        · exact Or.inl h
        · exact Or.inr ⟨i, List.mem_cons_self i is, hexp.mpr h⟩
        · exact Or.inr ⟨j, List.mem_cons_of_mem i hj, hjc⟩
      · rintro (h | ⟨j, hj, hjc⟩)
        · exact Or.inl (Or.inl h)
        · rcases List.mem_cons.mp hj with rfl | hj'
          · exact Or.inl (Or.inr (hexp.mp hjc))
          · exact Or.inr ⟨j, hj', hjc⟩

theorem buildPool_eq_flatMap (st : AppState) (resolved : List String) :
    buildPool st resolved = resolved.flatMap (fun code =>
      if code.contains '.' then st.locationsByFeatureCode code
      else st.locationsByFeatureClass code) := by
  unfold buildPool
  suffices h : ∀ (l : List String) (init : List Location),
      l.foldl (fun pool code =>
        pool ++ (if code.contains '.' then st.locationsByFeatureCode code
                 else st.locationsByFeatureClass code)) init =
      init ++ l.flatMap (fun code =>
        if code.contains '.' then st.locationsByFeatureCode code
        else st.locationsByFeatureClass code) by
    rw [h resolved []]
    simp
  intro l
  induction l with
  | nil => intro init; simp
  | cons x xs ih =>
    intro init
    rw [List.foldl_cons, List.flatMap_cons, ih, List.append_assoc]

/-- C9: every habitat identifier naming a known location group expands
to the group's member feature codes and any other identifier is a
literal feature code; codes are looked up by full code (with a dot) or
feature class, absent codes contributing nothing; and when the
resolved pool is empty the output record keeps the computed sighting
count with an empty locations list — the engine returns a record on
every such configuration. -/
theorem claim9_empty_pool_keeps_count :
    (∀ (m : Monster) (c : String),
      c ∈ resolvedFeatureCodes m ↔ ∃ i ∈ m.locations, specExpands i c) ∧
    (∀ (st : AppState) (resolved : List String),
      buildPool st resolved = resolved.flatMap (fun code =>
        if code.contains '.' then st.locationsByFeatureCode code
        else st.locationsByFeatureClass code)) ∧
    (∀ (st : AppState) (ctx : Ctx) (f : String → ℕ → ℚ) (m : Monster),
      0 < (calculateSpottingData m ctx).chance →
      buildPool st (resolvedFeatureCodes m) = [] →
      (simulateMonster st ctx f m).1.locations = [] ∧
      (simulateMonster st ctx f m).1.count =
        bernoulliCount (f (getDateSeed ctx.date ++ m.id)) (calculateSpottingData m ctx).chance) := by
  refine ⟨mem_resolvedFeatureCodes, buildPool_eq_flatMap, ?_⟩
  intro st ctx f m hpos hpool
  have hch : ¬ (calculateSpottingData m ctx).chance ≤ 0 := not_le_of_lt hpos
  unfold simulateMonster
  simp only [hch, if_false]
  refine ⟨?_, by first | rfl | simp⟩
  unfold generateMonsterLocations
  by_cases hcnt : bernoulliCount (f (getDateSeed ctx.date ++ m.id))
      (calculateSpottingData m ctx).chance = 0
  · simp [hcnt]
  · simp [hcnt, hpool]

/-- C9 witness: a monster whose habitat code resolves to no locations
still reports its simulated count (40 successes against a constant 0
stream and positive chance) with an empty locations list. -/
theorem claim9_empty_pool_keeps_count_witness :
    (simulateMonster st0 ⟨dJune, dbg0, wNoon⟩ (fun _ _ => 0) mC1).1.locations = [] ∧
    (simulateMonster st0 ⟨dJune, dbg0, wNoon⟩ (fun _ _ => 0) mC1).1.count =
      bernoulliCount ((fun _ _ => (0 : ℚ)) (getDateSeed dJune ++ mC1.id))
        (calculateSpottingData mC1 ⟨dJune, dbg0, wNoon⟩).chance :=
  claim9_empty_pool_keeps_count.2.2 st0 ⟨dJune, dbg0, wNoon⟩ (fun _ _ => 0) mC1
    (by with_unfolding_all decide) (by with_unfolding_all decide)

/-! ### C10: jitter bounds and frame -/

theorem genLoop_spec (pool : List Location) (hpool : pool ≠ [])
    (rng : ℕ → ℚ) (hr : ∀ n, 0 ≤ rng n ∧ rng n < 1) :
    ∀ (count k : ℕ), ∀ s ∈ (genLoop pool count rng k).1,
      (∃ b ∈ pool, s.name = b.name ∧ s.latitude = b.latitude ∧ s.longitude = b.longitude) ∧
      (-(1/200) ≤ s.lat - s.latitude ∧ s.lat - s.latitude < 1/200) ∧
      (-(1/200) ≤ s.lng - s.longitude ∧ s.lng - s.longitude < 1/200) := by
  intro count
  induction count with
  | zero => intro k s hs; cases hs
  | succ c ih =>
    intro k s hs
    rw [genLoop] at hs
    rcases List.mem_cons.mp hs with rfl | hs'
    · constructor
      · have hlen : 0 < pool.length := List.length_pos.mpr hpool
        have hq0 : (0 : ℚ) ≤ rng k * pool.length :=
          mul_nonneg (hr k).1 (by positivity)
        have hq1 : rng k * pool.length < pool.length := by
          have := (hr k).2
          calc rng k * pool.length < 1 * pool.length := by
                apply mul_lt_mul_of_pos_right this
                exact_mod_cast hlen
            _ = pool.length := one_mul _
        have hfl : jsFloorNat (rng k * pool.length) < pool.length := by
          unfold jsFloorNat
          have h0 : (0 : ℤ) ≤ ⌊rng k * (pool.length : ℚ)⌋ :=
            Int.le_floor.mpr (by exact_mod_cast hq0)
          have h1 : ⌊rng k * (pool.length : ℚ)⌋ < (pool.length : ℤ) :=
            Int.floor_lt.mpr (by exact_mod_cast hq1)
          omega
        refine ⟨pool.getD (jsFloorNat (rng k * pool.length)) ⟨"", 0, 0⟩, ?_, rfl, rfl, rfl⟩
        rw [List.getD_eq_getElem?_getD, List.getElem?_eq_getElem hfl]
        exact List.getElem_mem hfl
      · have h1 := hr (k + 1)
        have h2 := hr (k + 2)
        constructor
        · constructor <;> (simp only; nlinarith [h1.1, h1.2])
        · constructor <;> (simp only; nlinarith [h2.1, h2.2])
    · exact ih (k + 3) s hs'

/-- C10 (amended): `generateMonsterLocations` reads the pool without
modifying it; every returned placement is a fresh record that retains
some base location's original `latitude`/`longitude` fields unchanged,
and each jittered coordinate offset lies in [−0.005, 0.005) — at least
−0.005 (attained exactly when the stream yields 0) and strictly less
than +0.005. -/
theorem claim10_amended_jitter (st : AppState) (m : Monster) (count : ℕ)
    (rng : ℕ → ℚ) (k : ℕ) (hr : ∀ n, 0 ≤ rng n ∧ rng n < 1) :
    ∀ s ∈ (generateMonsterLocations st m count rng k).1,
      (∃ b ∈ buildPool st (resolvedFeatureCodes m),
        s.name = b.name ∧ s.latitude = b.latitude ∧ s.longitude = b.longitude) ∧
      (-(1/200) ≤ s.lat - s.latitude ∧ s.lat - s.latitude < 1/200) ∧
      (-(1/200) ≤ s.lng - s.longitude ∧ s.lng - s.longitude < 1/200) := by
  intro s hs
  unfold generateMonsterLocations at hs
  by_cases hc : count = 0
  · rw [if_pos hc] at hs
    cases hs
  · rw [if_neg hc] at hs
    by_cases hp : buildPool st (resolvedFeatureCodes m) = []
    · simp only [hp, if_pos] at hs
      cases hs
    · simp only [hp, if_neg, if_false] at hs
      exact genLoop_spec (buildPool st (resolvedFeatureCodes m)) hp rng hr count k s hs

/-- C10 witness: with the constant stream 1/2 the single placement
keeps the base coordinates (jitter 0) and satisfies the bounds. -/
theorem claim10_amended_jitter_witness :
    (∃ b ∈ buildPool st10 (resolvedFeatureCodes m10),
      (⟨"spot", 59, 18, 59, 18⟩ : SpottedLocation).name = b.name ∧
      (⟨"spot", 59, 18, 59, 18⟩ : SpottedLocation).latitude = b.latitude ∧
      (⟨"spot", 59, 18, 59, 18⟩ : SpottedLocation).longitude = b.longitude) ∧
    (-(1/200) ≤ (⟨"spot", 59, 18, 59, 18⟩ : SpottedLocation).lat -
        (⟨"spot", 59, 18, 59, 18⟩ : SpottedLocation).latitude ∧
      (⟨"spot", 59, 18, 59, 18⟩ : SpottedLocation).lat -
        (⟨"spot", 59, 18, 59, 18⟩ : SpottedLocation).latitude < 1/200) ∧
    (-(1/200) ≤ (⟨"spot", 59, 18, 59, 18⟩ : SpottedLocation).lng -
        (⟨"spot", 59, 18, 59, 18⟩ : SpottedLocation).longitude ∧
      (⟨"spot", 59, 18, 59, 18⟩ : SpottedLocation).lng -
        (⟨"spot", 59, 18, 59, 18⟩ : SpottedLocation).longitude < 1/200) :=
  claim10_amended_jitter st10 m10 1 (fun _ => 1/2) 0
    (fun _ => by norm_num)
    ⟨"spot", 59, 18, 59, 18⟩
    (by with_unfolding_all decide)

/-! ### C1: determinism up to the observed time-of-day -/

section Congruence

variable (c1 c2 : Ctx)

theorem getCurrentPeriodName_congr (hm : currentMins c1 = currentMins c2) :
    getCurrentPeriodName c1 = getCurrentPeriodName c2 := by
  unfold getCurrentPeriodName
  rw [hm]

theorem isPeriod_congr (hm : currentMins c1 = currentMins c2) (n : String) :
    isPeriod c1 n = isPeriod c2 n := by
  unfold isPeriod
  rw [getCurrentPeriodName_congr c1 c2 hm]

theorem isNight_congr (hh : currentHours c1 = currentHours c2) :
    isNight c1 = isNight c2 := by
  unfold isNight
  rw [hh]

theorem isDark_congr (hh : currentHours c1 = currentHours c2)
    (hm : currentMins c1 = currentMins c2) : isDark c1 = isDark c2 := by
  unfold isDark
  rw [isPeriod_congr c1 c2 hm, isNight_congr c1 c2 hh]

theorem isWitchingHour_congr (hh : currentHours c1 = currentHours c2) :
    isWitchingHour c1 = isWitchingHour c2 := by
  unfold isWitchingHour
  rw [hh]

theorem isFullMoon_congr (hd : c1.date = c2.date) (hg : c1.dbg = c2.dbg) :
    isFullMoon c1 = isFullMoon c2 := by
  unfold isFullMoon
  rw [hd, hg]

theorem isHalloween_congr (hd : c1.date = c2.date) (hg : c1.dbg = c2.dbg) :
    isHalloween c1 = isHalloween c2 := by
  unfold isHalloween
  rw [hd, hg]

theorem isMidsummer_congr (hd : c1.date = c2.date) :
    isMidsummer c1 = isMidsummer c2 := by
  unfold isMidsummer
  rw [hd]

theorem isYule_congr (hd : c1.date = c2.date) : isYule c1 = isYule c2 := by
  unfold isYule
  rw [hd]

theorem getCurrentSeason_congr (hd : c1.date = c2.date) (hg : c1.dbg = c2.dbg) :
    getCurrentSeason c1 = getCurrentSeason c2 := by
  unfold getCurrentSeason
  rw [hd, hg]

theorem getTimeMultiplier_congr (hm : currentMins c1 = currentMins c2)
    (ats : List String) : getTimeMultiplier c1 ats = getTimeMultiplier c2 ats := by
  unfold getTimeMultiplier
  rw [hm]

theorem evalCondition_congr (hd : c1.date = c2.date) (hg : c1.dbg = c2.dbg)
    (hh : currentHours c1 = currentHours c2) (hm : currentMins c1 = currentMins c2)
    (cond : ModCondition) : evalCondition cond c1 = evalCondition cond c2 := by
  cases cond with
  | witchingHour => exact isWitchingHour_congr c1 c2 hh
  | period n => exact isPeriod_congr c1 c2 hm n
  | fullMoon => exact isFullMoon_congr c1 c2 hd hg
  | yule => exact isYule_congr c1 c2 hd
  | midsummer => exact isMidsummer_congr c1 c2 hd

theorem evaluateModifier_congr (hd : c1.date = c2.date) (hg : c1.dbg = c2.dbg)
    (hh : currentHours c1 = currentHours c2) (hm : currentMins c1 = currentMins c2)
    (m : Monster) (name ty : String) :
    evaluateModifier m c1 name ty = evaluateModifier m c2 name ty := by
  unfold evaluateModifier
  cases hdef : lookupDefinition ty name with
  | none => rfl
  | some pr =>
    simp only
    rw [evalCondition_congr c1 c2 hd hg hh hm]

theorem restrictionFailures_congr (hd : c1.date = c2.date) (hg : c1.dbg = c2.dbg)
    (hh : currentHours c1 = currentHours c2) (hm : currentMins c1 = currentMins c2)
    (m : Monster) : restrictionFailures m c1 = restrictionFailures m c2 := by
  unfold restrictionFailures
  cases m.restriction with
  | none => rfl
  | some r =>
    simp only
    rw [isFullMoon_congr c1 c2 hd hg, isDark_congr c1 c2 hh hm, isNight_congr c1 c2 hh]

theorem applyBonuses_congr (hd : c1.date = c2.date) (hg : c1.dbg = c2.dbg)
    (hh : currentHours c1 = currentHours c2) (hm : currentMins c1 = currentMins c2)
    (m : Monster) : applyBonuses m c1 = applyBonuses m c2 := by
  funext acc
  unfold applyBonuses
  exact List.foldl_ext _ _ acc fun a b _ => by
    rw [evaluateModifier_congr c1 c2 hd hg hh hm]

theorem applyPenalties_congr (hd : c1.date = c2.date) (hg : c1.dbg = c2.dbg)
    (hh : currentHours c1 = currentHours c2) (hm : currentMins c1 = currentMins c2)
    (m : Monster) : applyPenalties m c1 = applyPenalties m c2 := by
  funext acc
  unfold applyPenalties
  exact List.foldl_ext _ _ acc fun a b _ => by
    rw [evaluateModifier_congr c1 c2 hd hg hh hm]

theorem applyFinalSteps_congr (hg : c1.dbg = c2.dbg) :
    applyFinalSteps c1 = applyFinalSteps c2 := by
  funext c e bd
  unfold applyFinalSteps
  rw [hg]

theorem calculateSpottingData_congr (hd : c1.date = c2.date) (hg : c1.dbg = c2.dbg)
    (hh : currentHours c1 = currentHours c2) (hm : currentMins c1 = currentMins c2)
    (m : Monster) : calculateSpottingData m c1 = calculateSpottingData m c2 := by
  unfold calculateSpottingData
  rw [isHalloween_congr c1 c2 hd hg, restrictionFailures_congr c1 c2 hd hg hh hm,
    getCurrentSeason_congr c1 c2 hd hg, getTimeMultiplier_congr c1 c2 hm,
    getCurrentPeriodName_congr c1 c2 hm, applyBonuses_congr c1 c2 hd hg hh hm,
    applyPenalties_congr c1 c2 hd hg hh hm, applyFinalSteps_congr c1 c2 hg]

theorem simulateMonster_congr (hd : c1.date = c2.date) (hg : c1.dbg = c2.dbg)
    (hh : currentHours c1 = currentHours c2) (hm : currentMins c1 = currentMins c2)
    (st : AppState) (f : String → ℕ → ℚ) (m : Monster) :
    simulateMonster st c1 f m = simulateMonster st c2 f m := by
  unfold simulateMonster
  rw [hd, calculateSpottingData_congr c1 c2 hd hg hh hm]

end Congruence

/-- C1 (amended): for every fixed application date, entity set,
override set, and stream factory, two invocations of the full
recomputation yield identical output records whenever the forced-time
override is non-null, or the two invocations observe the same
wall-clock hour and minute (seconds and milliseconds may differ). -/
theorem claim1_amended_determinism (st : AppState) (d : JsDate) (dbg : DebugState)
    (w1 w2 : WallClock) (f : String → ℕ → ℚ) (monsters : List Monster)
    (h : dbg.forceTime.isSome = true ∨
      (w1.hours = w2.hours ∧ w1.minutes = w2.minutes)) :
    calculateSpottedMonsters st ⟨d, dbg, w1⟩ f monsters =
    calculateSpottedMonsters st ⟨d, dbg, w2⟩ f monsters := by
  have hhm : currentHours (⟨d, dbg, w1⟩ : Ctx) = currentHours (⟨d, dbg, w2⟩ : Ctx) ∧
      currentMins (⟨d, dbg, w1⟩ : Ctx) = currentMins (⟨d, dbg, w2⟩ : Ctx) := by
    cases hft : dbg.forceTime with
    | some t =>
      obtain ⟨th, tm⟩ := t
      constructor <;> simp [currentHours, currentMins, getCurrentTime, hft]
    | none =>
      rcases h with hs | ⟨hh', hm'⟩
      · rw [hft] at hs
        cases hs
      · constructor <;>
          simp [currentHours, currentMins, getCurrentTime, timeToMins, hft, hh', hm']
  unfold calculateSpottedMonsters
  refine List.map_congr_left fun m _ => ?_
  rw [simulateMonster_congr ⟨d, dbg, w1⟩ ⟨d, dbg, w2⟩ rfl rfl hhm.1 hhm.2 st f m]

/-- C1 witness: with the forced time 22:30 the recomputation is
identical for wall clocks 12:00 and 22:30. -/
theorem claim1_amended_determinism_witness :
    calculateSpottedMonsters st0 ⟨dJune, ⟨1, some (22, 30), none, "auto", none⟩, wNoon⟩
      f0 [mC1] =
    calculateSpottedMonsters st0 ⟨dJune, ⟨1, some (22, 30), none, "auto", none⟩, wNight⟩
      f0 [mC1] :=
  claim1_amended_determinism st0 dJune ⟨1, some (22, 30), none, "auto", none⟩
    wNoon wNight f0 [mC1] (Or.inl rfl)

end MonsterSpotter
